import Mathlib

/-!
# Workout map application (`script.js`): shallow embedding and verification

The script is a browser program: a `Workout` class with the two subclasses
`Running` and `Cycling`, and a controller class `App` that owns the workout
log (`#workouts`), reacts to form submissions and clicks, renders through
Leaflet and the DOM, and persists the log in `localStorage`.

Modelling decisions

* JavaScript values are the inductive type `JVal`.  Objects are property
  lists in creation order together with the prototype they were built with.
* JavaScript numbers are IEEE-754 doubles.  Their arithmetic is not
  re-implemented: the primitives the script calls (`Number(..)`,
  `Number.isFinite`, `<`, `/`, `+`, literals, string conversion, `toFixed`,
  truthiness) are the fields of `JSNum`, and every general theorem holds for
  every implementation of them.  `Dec` is one executable implementation (exact
  decimal/rational arithmetic with `NaN` and the two infinities) used to run
  the program on concrete inputs.
* Strings are Lean strings (sequences of Unicode scalar values).
* The clock (`new Date()`, `Date.now()`) is an input of every constructor.
* The browser and Leaflet are collaborators: each call made to them is
  recorded in `Page.effects` or on the
  map; `localStorage` is state because it is read back.
* A statement that throws is a `Completion.throw` carrying the state at the
  point of the throw.
* Not modelled: the tile layer, `_getPosition` (its answer is the argument of
  `_loadMap`), `_toggleElevationField` (it only toggles two CSS classes), and
  failures of `localStorage` itself.
-/

namespace MapApp

/-! ## Numbers -/

/-- The number primitives used by the script, over a carrier `α` of number values. -/
structure JSNum (α : Type) where
  /-- The literal of a natural number, such as `0`, `13` or `60`. -/
  ofNat : Nat → α
  /-- The value `NaN`. -/
  nan : α
  /-- The call `Number(s)` on a string. -/
  Number : String → α
  /-- The call `Number.isFinite(x)` on a number. -/
  isFinite : α → Bool
  /-- The comparison `x < y` on numbers (`x > y` is `y < x`). -/
  lt : α → α → Bool
  /-- The quotient `x / y`. -/
  div : α → α → α
  /-- The sum `x + y`. -/
  add : α → α → α
  /-- The conversion of a number to a string, as in a template literal. -/
  toString : α → String
  /-- The call `x.toFixed(digits)`. -/
  toFixed : α → Nat → String
  /-- The truthiness of a number (`false` for zero and `NaN`). -/
  toBoolean : α → Bool

/-! ## Values -/

/-- A `Date` object, as far as the script observes it. -/
structure JSDate where
  /-- The time value in milliseconds since the epoch. -/
  time : Nat
  /-- The result of `getMonth()`, an index from 0 to 11. -/
  month : Fin 12
  /-- The result of `getDate()`, the day of the month. -/
  day : Nat
  /-- The result of `toISOString()`, which `JSON.stringify` writes. -/
  iso : String
  /-- The result of `toString()`. -/
  text : String
deriving DecidableEq, Repr

/-- The clock readings taken by one `Workout` construction. -/
structure Clock where
  /-- The object made by `new Date()`. -/
  date : JSDate
  /-- The result of `Date.now()`. -/
  now : Nat
deriving DecidableEq, Repr

/-- The prototype an object was created with. -/
inductive Proto where
  | object
  | running
  | cycling
deriving DecidableEq, Repr

/-- JavaScript values. -/
inductive JVal (α : Type) where
  | undefined
  | null
  | bool (b : Bool)
  | num (x : α)
  | str (s : String)
  | date (d : JSDate)
  | arr (xs : List (JVal α))
  | obj (proto : Proto) (props : List (String × JVal α))
deriving Repr

/-- Exceptions raised by the script. -/
inductive JSError where
  | typeError (msg : String)
  | syntaxError (msg : String)
deriving DecidableEq, Repr

/-- The outcome of running a method on a state: it returns, or it throws. -/
inductive Completion (σ : Type) where
  | normal (s : σ)
  | throw (e : JSError) (s : σ)
deriving Repr

/-- The state in which a completion leaves the program. -/
def Completion.state {σ : Type} : Completion σ → σ
  | .normal s => s
  | .throw _ s => s

/-- Sequencing: the next statement runs only after a normal completion. -/
def Completion.andThen {σ : Type} (c : Completion σ) (f : σ → Completion σ) : Completion σ :=
  match c with
  | .normal s => f s
  | .throw e s => .throw e s

/-- Whether the completion is a throw. -/
def Completion.threw {σ : Type} : Completion σ → Bool
  | .normal _ => false
  | .throw _ _ => true

section Values

variable {α : Type} (J : JSNum α)

/-- The lookup of a key in a property list (first match). -/
def lookup : List (String × JVal α) → String → JVal α
  | [], _ => .undefined
  | (k, v) :: ps, key => if k = key then v else lookup ps key

/-- The property read `v.key`, for the property names the script reads
(`type`, `id`, `description`, `coords`, `distance`, `duration`, `pace`,
`cadence`, `speed`, `elevationGain`, `date`, `clicks`): none of them is
a built-in property of a primitive, an array or a date.  Reading a property
of `undefined` or `null` throws. -/
def getProp (v : JVal α) (key : String) : Except JSError (JVal α) :=
  match v with
  | .undefined => .error (.typeError ("Cannot read properties of undefined (reading " ++ key ++ ")"))
  | .null => .error (.typeError ("Cannot read properties of null (reading " ++ key ++ ")"))
  | .obj _ ps => .ok (lookup ps key)
  | _ => .ok .undefined

/-- The update of a property list by `key = v`: in place when the key exists,
appended otherwise. -/
def assign : List (String × JVal α) → String → JVal α → List (String × JVal α)
  | [], key, v => [(key, v)]
  | (k, w) :: ps, key, v => if k = key then (k, v) :: ps else (k, w) :: assign ps key v

/-- The property write `this.key = v` on an object.  The script writes
properties only in the methods of `Workout`, which run on the objects the
constructors build; a value that is not such an object is returned as it is. -/
def setProp (this : JVal α) (key : String) (v : JVal α) : JVal α :=
  match this with
  | .obj p ps => .obj p (assign ps key v)
  | other => other

/-- The strict equality `v === s` against a string. -/
def strictEqStr (v : JVal α) (s : String) : Bool :=
  match v with
  | .str t => decide (t = s)
  | _ => false

mutual
/-- The conversion of a value to a string, as in a template literal. -/
def toStr : JVal α → String
  | .undefined => "undefined"
  | .null => "null"
  | .bool b => if b then "true" else "false"
  | .num x => J.toString x
  | .str s => s
  | .date d => d.text
  | .arr xs => joinStr xs
  | .obj _ _ => "[object Object]"
/-- The call `xs.join(",")`: `undefined` and `null` elements give the empty string. -/
def joinStr : List (JVal α) → String
  | [] => ""
  | [x] => elemStr x
  | x :: y :: rest => elemStr x ++ "," ++ joinStr (y :: rest)
/-- The string of one array element inside `join`. -/
def elemStr : JVal α → String
  | .undefined => ""
  | .null => ""
  | .bool b => if b then "true" else "false"
  | .num x => J.toString x
  | .str s => s
  | .date d => d.text
  | .arr xs => joinStr xs
  | .obj _ _ => "[object Object]"
end

/-- The conversion of a value to a number, as applied to the operands of `/`. -/
def toNumber (v : JVal α) : α :=
  match v with
  | .undefined => J.nan
  | .null => J.ofNat 0
  | .bool b => if b then J.ofNat 1 else J.ofNat 0
  | .num x => x
  | .str s => J.Number s
  | .date d => J.ofNat d.time
  | .arr xs => J.Number (toStr J (.arr xs))
  | .obj _ _ => J.nan

/-- The truthiness of a value, as tested by `!data`. -/
def toBoolean (v : JVal α) : Bool :=
  match v with
  | .undefined => false
  | .null => false
  | .bool b => b
  | .num x => J.toBoolean x
  | .str s => decide (s ≠ "")
  | _ => true

mutual
/-- The JSON document written by `JSON.stringify` for a value: non-finite
numbers become `null`, a date becomes its ISO string, `undefined` becomes `null`
inside an array and its property is left out of an object, and prototypes are
not recorded. -/
def toJSON : JVal α → JVal α
  | .undefined => .undefined
  | .null => .null
  | .bool b => .bool b
  | .num x => if J.isFinite x then .num x else .null
  | .str s => .str s
  | .date d => .str d.iso
  | .arr xs => .arr (toJSONArr xs)
  | .obj _ ps => .obj .object (toJSONProps ps)
/-- The elements of an array in `JSON.stringify`. -/
def toJSONArr : List (JVal α) → List (JVal α)
  | [] => []
  | .undefined :: xs => .null :: toJSONArr xs
  | x :: xs => toJSON x :: toJSONArr xs
/-- The properties of an object in `JSON.stringify`. -/
def toJSONProps : List (String × JVal α) → List (String × JVal α)
  | [] => []
  | (_, .undefined) :: ps => toJSONProps ps
  | (k, v) :: ps => (k, toJSON v) :: toJSONProps ps
end

end Values

/-! ## An executable number implementation -/

/-- Numbers for running the program: `NaN`, the two infinities, and the exact
fractions `num / den` in lowest terms with `den > 0`.  Arithmetic is exact; a
result whose magnitude a double cannot hold becomes an infinity, and one below
the smallest double becomes zero, so finiteness and sign are those of the
double.  There is no negative zero. -/
inductive Dec where
  | nan
  | posInf
  | negInf
  | fin (num : Int) (den : Nat)
deriving DecidableEq, Repr

namespace Dec

/-- The number `num / den` for `den > 0`, brought to lowest terms and to the
range of a double. -/
def norm (num : Int) (den : Nat) : Dec :=
  let g := Nat.gcd num.natAbs den
  let n := num.natAbs / g
  let d := den / g
  if ((1 <<< 1024) - (1 <<< 970)) * d ≤ n then (if num < 0 then negInf else posInf)
  else if n * (1 <<< 1075) ≤ d then fin 0 1
  else fin (if num < 0 then -(n : Int) else (n : Int)) d

/-- The quotient `x / y`. -/
def div : Dec → Dec → Dec
  | nan, _ => nan
  | _, nan => nan
  | fin a b, fin c d =>
    if c = 0 then (if a = 0 then nan else if a < 0 then negInf else posInf)
    else if c < 0 then norm (-(a * d)) (b * c.natAbs)
    else norm (a * d) (b * c.natAbs)
  | fin _ _, _ => fin 0 1
  | posInf, fin c _ => if c < 0 then negInf else posInf
  | negInf, fin c _ => if c < 0 then posInf else negInf
  | _, _ => nan

/-- The sum `x + y`. -/
def add : Dec → Dec → Dec
  | nan, _ => nan
  | _, nan => nan
  | fin a b, fin c d => norm (a * d + c * b) (b * d)
  | posInf, negInf => nan
  | negInf, posInf => nan
  | posInf, _ => posInf
  | negInf, _ => negInf
  | _, posInf => posInf
  | _, negInf => negInf

/-- The comparison `x < y`. -/
def lt : Dec → Dec → Bool
  | nan, _ => false
  | _, nan => false
  | fin a b, fin c d => decide (a * d < c * b)
  | negInf, negInf => false
  | negInf, _ => true
  | _, negInf => false
  | posInf, _ => false
  | _, posInf => true

/-- The call `Number.isFinite(x)`. -/
def isFinite : Dec → Bool
  | fin _ _ => true
  | _ => false

/-- The truthiness of a number. -/
def toBoolean : Dec → Bool
  | nan => false
  | fin a _ => decide (a ≠ 0)
  | _ => true

/-- The first `k` decimal digits of the fraction `r / d` (`r < d`), stopping
when the remainder is zero. -/
def fracDigits : Nat → Nat → Nat → List Char
  | 0, _, _ => []
  | k + 1, r, d =>
    if r = 0 then [] else Char.ofNat (48 + r * 10 / d) :: fracDigits k (r * 10 % d) d

/-- The conversion to a string in decimal notation.  At most 16 fractional
digits are written. -/
def toString : Dec → String
  | nan => "NaN"
  | posInf => "Infinity"
  | negInf => "-Infinity"
  | fin a d =>
    let n := a.natAbs
    let frac := fracDigits 16 (n % d) d
    (if a < 0 then "-" else "") ++ Nat.repr (n / d) ++
      (if frac = [] then "" else "." ++ String.mk frac)

/-- The digits of `n`, padded with zeros on the left to `width` characters. -/
def padDigits (n width : Nat) : String :=
  let s := (Nat.repr n).data
  String.mk (List.replicate (width - s.length) '0' ++ s)

/-- The call `x.toFixed(digits)`: the nearest multiple of `10 ^ -digits`, a tie
going to the larger magnitude. -/
def toFixed : Dec → Nat → String
  | nan, _ => "NaN"
  | posInf, _ => "Infinity"
  | negInf, _ => "-Infinity"
  | fin a d, digits =>
    if 10 ^ 21 * d ≤ a.natAbs then toString (fin a d)
    else
      let n := (2 * a.natAbs * 10 ^ digits + d) / (2 * d)
      (if a < 0 then "-" else "") ++ Nat.repr (n / 10 ^ digits) ++
        (if digits = 0 then "" else "." ++ padDigits (n % 10 ^ digits) digits)

/-- White space and line terminators, which `Number` strips from both ends. -/
def isSpace (c : Char) : Bool :=
  let n := c.toNat
  n = 9 || n = 10 || n = 11 || n = 12 || n = 13 || n = 32 || n = 160 || n = 5760 ||
    (8192 ≤ n && n ≤ 8202) || n = 8232 || n = 8233 || n = 8239 || n = 8287 || n = 12288 ||
    n = 65279

/-- The value of a digit character in the given base. -/
def digitVal (base : Nat) (c : Char) : Option Nat :=
  let n := c.toNat
  let v :=
    if 48 ≤ n && n ≤ 57 then some (n - 48)
    else if 97 ≤ n && n ≤ 102 then some (n - 87)
    else if 65 ≤ n && n ≤ 70 then some (n - 55)
    else none
  match v with
  | some k => if k < base then some k else none
  | none => none

/-- The longest run of digits of the given base at the front of the characters:
its value, its length, and the characters after it. -/
def readDigits (base : Nat) : List Char → Nat → Nat → Nat × Nat × List Char
  | [], acc, len => (acc, len, [])
  | c :: cs, acc, len =>
    match digitVal base c with
    | some k => readDigits base cs (acc * base + k) (len + 1)
    | none => (acc, len, c :: cs)

/-- An integer literal of the given base that must use all the characters. -/
def readInteger (base : Nat) (cs : List Char) : Dec :=
  match readDigits base cs 0 0 with
  | (v, len, []) => if len = 0 then nan else norm v 1
  | _ => nan

/-- The number `m * 10 ^ e` for a natural mantissa and an integer exponent. -/
def scale (m : Nat) (e : Int) : Dec :=
  match e with
  | Int.ofNat k => norm (m * 10 ^ k : Nat) 1
  | Int.negSucc k => norm m (10 ^ (k + 1))

/-- The exponent part of a decimal literal, which must use all the characters. -/
def readExponent : List Char → Option Int
  | [] => some 0
  | c :: cs =>
    if c = 'e' ∨ c = 'E' then
      match cs with
      | '+' :: ds =>
        match readDigits 10 ds 0 0 with
        | (v, len, []) => if len = 0 then none else some v
        | _ => none
      | '-' :: ds =>
        match readDigits 10 ds 0 0 with
        | (v, len, []) => if len = 0 then none else some (-(v : Int))
        | _ => none
      | ds =>
        match readDigits 10 ds 0 0 with
        | (v, len, []) => if len = 0 then none else some v
        | _ => none
    else none

/-- An unsigned decimal literal: `Infinity`, or digits with an optional
fraction and exponent. -/
def readUnsigned (cs : List Char) : Dec :=
  if cs = "Infinity".data then posInf
  else
    match readDigits 10 cs 0 0 with
    | (ip, ilen, '.' :: r) =>
      match readDigits 10 r ip 0 with
      | (m, flen, r2) =>
        if ilen = 0 ∧ flen = 0 then nan
        else
          match readExponent r2 with
          | some e => scale m (e - flen)
          | none => nan
    | (ip, ilen, r) =>
      if ilen = 0 then nan
      else
        match readExponent r with
        | some e => scale ip e
        | none => nan

/-- The negation of a number. -/
def neg : Dec → Dec
  | nan => nan
  | posInf => negInf
  | negInf => posInf
  | fin a d => fin (-a) d

/-- The characters without leading white space. -/
def dropSpace : List Char → List Char
  | [] => []
  | c :: cs => if isSpace c then dropSpace cs else c :: cs

/-- The characters without leading and trailing white space. -/
def trim (cs : List Char) : List Char :=
  (dropSpace (dropSpace cs).reverse).reverse

/-- The call `Number(s)` on a string: white space is stripped, the empty
string is zero, and anything that is not a numeric literal is `NaN`. -/
def Number (s : String) : Dec :=
  match trim s.data with
  | [] => fin 0 1
  | '0' :: 'x' :: ds => readInteger 16 ds
  | '0' :: 'X' :: ds => readInteger 16 ds
  | '0' :: 'o' :: ds => readInteger 8 ds
  | '0' :: 'O' :: ds => readInteger 8 ds
  | '0' :: 'b' :: ds => readInteger 2 ds
  | '0' :: 'B' :: ds => readInteger 2 ds
  | '+' :: ds => readUnsigned ds
  | '-' :: ds => neg (readUnsigned ds)
  | ds => readUnsigned ds

end Dec

/-- The executable implementation of the number primitives. -/
def decNum : JSNum Dec where
  ofNat := fun n => Dec.norm n 1
  nan := Dec.nan
  Number := Dec.Number
  isFinite := Dec.isFinite
  lt := Dec.lt
  div := Dec.div
  add := Dec.add
  toString := Dec.toString
  toFixed := Dec.toFixed
  toBoolean := Dec.toBoolean

/-! ## The `Workout` classes -/

section Classes

variable {α : Type} (J : JSNum α)

/-- The call `s.slice(-n)`: the last `n` characters, or all of a shorter string. -/
def sliceLast (s : String) (n : Nat) : String :=
  String.mk (s.data.drop (s.data.length - n))

/-- The call `s.toUpperCase()`, on ASCII letters. -/
def toUpperCase (s : String) : String :=
  String.mk (s.data.map Char.toUpper)

/-- The table `months` of `_setDescription`. -/
def months : List String :=
  ["January", "February", "March", "April", "May", "June", "July", "August", "September",
    "October", "November", "December"]

/-- The element `months[i]` as the template literal prints it. -/
def monthsAt (i : Nat) : String :=
  match months[i]? with
  | some name => name
  | none => "undefined"

/-- The base constructor `Workout`: the field initialisers `date`, `id` and
`clicks`, then the assignments of `coords`, `distance` and `duration`. -/
def Workout (clk : Clock) (proto : Proto) (coords : JVal α) (distance duration : α) : JVal α :=
  .obj proto
    [("date", .date clk.date),
     ("id", .str (sliceLast (Nat.repr clk.now) 10)),
     ("clicks", .num (J.ofNat 0)),
     ("coords", coords),
     ("distance", .num distance),
     ("duration", .num duration)]

/-- The text `this.type[0].toUpperCase()` followed by `this.type.slice(1)`. -/
def capitalized (type : JVal α) : Except JSError String :=
  match type with
  | .undefined => .error (.typeError "Cannot read properties of undefined (reading 0)")
  | .null => .error (.typeError "Cannot read properties of null (reading 0)")
  | .str s =>
    match s.data with
    | [] => .error (.typeError "Cannot read properties of undefined (reading toUpperCase)")
    | c :: cs => .ok (toUpperCase (String.singleton c) ++ String.mk cs)
  | .arr (.str s :: xs) => .ok (toUpperCase s ++ joinStr J xs)
  | .arr (.undefined :: _) => .error (.typeError "Cannot read properties of undefined (reading toUpperCase)")
  | .arr (.null :: _) => .error (.typeError "Cannot read properties of null (reading toUpperCase)")
  | .arr [] => .error (.typeError "Cannot read properties of undefined (reading toUpperCase)")
  | .arr (_ :: _) => .error (.typeError "this.type[0].toUpperCase is not a function")
  | _ => .error (.typeError "Cannot read properties of undefined (reading toUpperCase)")

/-- The method `Workout._setDescription`. -/
def _setDescription (this : JVal α) : Except JSError (JVal α) := do
  let type ← getProp this "type"
  let cap ← capitalized J type
  let date ← getProp this "date"
  match date with
  | .date d =>
    pure (setProp this "description"
      (.str (cap ++ " on " ++ monthsAt d.month.val ++ " " ++ Nat.repr d.day)))
  | .undefined => throw (.typeError "Cannot read properties of undefined (reading getMonth)")
  | .null => throw (.typeError "Cannot read properties of null (reading getMonth)")
  | _ => throw (.typeError "this.date.getMonth is not a function")

/-- The method `Workout.click`: `this.clicks++`. -/
def click (this : JVal α) : Except JSError (JVal α) := do
  let clicks ← getProp this "clicks"
  pure (setProp this "clicks" (.num (J.add (toNumber J clicks) (J.ofNat 1))))

/-- The method `Running._calcPace`: `this.pace = this.duration / this.distance`. -/
def _calcPace (this : JVal α) : Except JSError (JVal α) := do
  let duration ← getProp this "duration"
  let distance ← getProp this "distance"
  pure (setProp this "pace" (.num (J.div (toNumber J duration) (toNumber J distance))))

/-- The constructor `Running`. -/
def Running (clk : Clock) (coords : JVal α) (distance duration cadence : α) :
    Except JSError (JVal α) := do
  let this := Workout J clk .running coords distance duration
  let this := setProp this "type" (.str "running")
  let this := setProp this "cadence" (.num cadence)
  let this ← _calcPace J this
  _setDescription J this

/-- The method `Cycling._calcSpeed`: `this.speed = this.distance / (this.duration / 60)`. -/
def _calcSpeed (this : JVal α) : Except JSError (JVal α) := do
  let distance ← getProp this "distance"
  let duration ← getProp this "duration"
  pure (setProp this "speed"
    (.num (J.div (toNumber J distance) (J.div (toNumber J duration) (J.ofNat 60)))))

/-- The constructor `Cycling`. -/
def Cycling (clk : Clock) (coords : JVal α) (distance duration elevationGain : α) :
    Except JSError (JVal α) := do
  let this := Workout J clk .cycling coords distance duration
  let this := setProp this "type" (.str "cycling")
  let this := setProp this "elevationGain" (.num elevationGain)
  let this ← _calcSpeed J this
  _setDescription J this

end Classes

/-! ## The application -/

/-- A text kept in `localStorage`: a JSON text, represented by the document it
denotes (what `JSON.parse` returns for it), or a text that is not JSON. -/
inductive StoredText (α : Type) where
  | json (doc : JVal α)
  | malformed (raw : String)
deriving Repr

/-- Calls to the browser that leave no state the script reads back. -/
inductive Effect (α : Type) where
  | alert (msg : String)
  | insertAdjacentHTML (position : String) (html : String)
  | setItem (key : String) (value : StoredText α)
  | removeItem (key : String)
  | reload
deriving Repr

/-- A Leaflet marker with its popup. -/
structure Marker (α : Type) where
  coords : JVal α
  className : String
  content : String
deriving Repr

/-- The Leaflet map held in `#map`. -/
structure LMap (α : Type) where
  center : JVal α
  zoom : α
  markers : List (Marker α)
deriving Repr

/-- The page: the form, the item `workouts` of `localStorage`, and the calls
made to the browser so far (oldest first). -/
structure Page (α : Type) where
  inputType : String
  inputDistance : String
  inputDuration : String
  inputCadence : String
  inputElevation : String
  formHidden : Bool
  localStorage : Option (StoredText α)
  effects : List (Effect α)
deriving Repr

/-- The controller `App` with its private fields, and the page it runs in. -/
structure App (α : Type) where
  map : Option (LMap α)
  mapEvent : Option (α × α)
  mapZoomLevel : α
  workouts : List (JVal α)
  page : Page α
deriving Repr

section Application

variable {α : Type} (J : JSNum α)

/-- The call `JSON.stringify(v)`, stored as text. -/
def JSON.stringify (v : JVal α) : StoredText α :=
  match toJSON J v with
  | .undefined => .malformed "undefined"
  | doc => .json doc

/-- The call `JSON.parse(localStorage.getItem(key))`: an absent item is `null`,
which parses to `null`. -/
def JSON.parse (item : Option (StoredText α)) : Except JSError (JVal α) :=
  match item with
  | none => .ok .null
  | some (.json doc) => .ok doc
  | some (.malformed raw) => .error (.syntaxError raw)

/-- The record of a call to the browser. -/
def emit (e : Effect α) (s : App α) : App α :=
  { s with page := { s.page with effects := s.page.effects ++ [e] } }

/-- The closure `validInputs` of `_newWorkout`. -/
def validInputs (inputs : List α) : Bool :=
  inputs.all (fun inp => J.isFinite inp)

/-- The closure `allPositive` of `_newWorkout`: `inp > 0` for every input. -/
def allPositive (inputs : List α) : Bool :=
  inputs.all (fun inp => J.lt (J.ofNat 0) inp)

/-- The icon chosen by the test of `workout.type` against the string `running`. -/
def icon (type : JVal α) : String :=
  if strictEqStr type "running" then "🏃\u200d♂\ufe0f" else "🚴\u200d♂\ufe0f"

/-- The call `v.toFixed(digits)` on a value. -/
def toFixed (v : JVal α) (digits : Nat) : Except JSError String :=
  match v with
  | .num x => .ok (J.toFixed x digits)
  | .undefined => .error (.typeError "Cannot read properties of undefined (reading toFixed)")
  | .null => .error (.typeError "Cannot read properties of null (reading toFixed)")
  | _ => .error (.typeError "toFixed is not a function")

/-- The string `html` built by `_renderWorkout`. -/
def _renderWorkout.html (workout : JVal α) : Except JSError String := do
  let type ← getProp workout "type"
  let id ← getProp workout "id"
  let description ← getProp workout "description"
  let distance ← getProp workout "distance"
  let html :=
      "\n" ++
      "  <li class=\"workout workout--" ++
      toStr J type ++
      "\" data-id=" ++
      toStr J id ++
      ">\n" ++
      "    <h2 class=\"workout__title\">" ++
      toStr J description ++
      "</h2>\n" ++
      "    <div class=\"workout__details\">\n" ++
      "      <span class=\"workout__icon\">" ++
      icon type ++
      "</span>\n" ++
      "      <span class=\"workout__value\">" ++
      toStr J distance ++
      "</span>\n" ++
      "      <span class=\"workout__unit\">km</span>\n" ++
      "    </div>\n" ++
      "    <div class=\"workout__details\">\n" ++
      "      <span class=\"workout__icon\">⏱</span>\n" ++
      "      <span class=\"workout__value\">24</span>\n" ++
      "      <span class=\"workout__unit\">min</span>\n" ++
      "    </div>\n" ++
      "    "
  let html ←
    if strictEqStr type "running" then do
      let pace ← toFixed J (← getProp workout "pace") 1
      let cadence ← getProp workout "cadence"
      pure (html ++
      "\n" ++
      "    <div class=\"workout__details\">\n" ++
      "          <span class=\"workout__icon\">⚡\ufe0f</span>\n" ++
      "          <span class=\"workout__value\">" ++
      pace ++
      "</span>\n" ++
      "          <span class=\"workout__unit\">min/km</span>\n" ++
      "        </div>\n" ++
      "        <div class=\"workout__details\">\n" ++
      "          <span class=\"workout__icon\">🦶🏼</span>\n" ++
      "          <span class=\"workout__value\">" ++
      toStr J cadence ++
      "<span>\n" ++
      "         <span class=\"workout__unit\">spm</span>\n" ++
      "     </div>\n" ++
      "   </li>\n" ++
      "    ")
    else pure html
  let html ←
    if strictEqStr type "cycling" then do
      let speed ← toFixed J (← getProp workout "speed") 1
      let elevationGain ← getProp workout "elevationGain"
      pure (html ++
      "\n" ++
      "      <div class=\"workout__details\">\n" ++
      "      <span class=\"workout__icon\">⚡\ufe0f</span>\n" ++
      "      <span class=\"workout__value\">" ++
      speed ++
      "</span>\n" ++
      "      <span class=\"workout__unit\">km/h</span>\n" ++
      "    </div>\n" ++
      "    <div class=\"workout__details\">\n" ++
      "      <span class=\"workout__icon\">⛰</span>\n" ++
      "      <span class=\"workout__value\">" ++
      toStr J elevationGain ++
      "</span>\n" ++
      "      <span class=\"workout__unit\">m</span>\n" ++
      "    </div>\n" ++
      "  </li> -->\n" ++
      "\n" ++
      "    ")
    else pure html
  pure html

/-- The method `App._renderWorkout`. -/
def _renderWorkout (workout : JVal α) (s : App α) : Completion (App α) :=
  match _renderWorkout.html J workout with
  | .error e => .throw e s
  | .ok html => .normal (emit (.insertAdjacentHTML "afterend" html) s)

/-- The method `App._renderWorkoutMaker`: the marker is made from
`workout.coords`, added to `#map`, and given its popup. -/
def _renderWorkoutMaker (workout : JVal α) (s : App α) : Completion (App α) :=
  match getProp workout "coords" with
  | .error e => .throw e s
  | .ok coords =>
    match s.map with
    | none => .throw (.typeError "Cannot read properties of undefined (reading addLayer)") s
    | some m =>
      match getProp workout "type", getProp workout "description" with
      | .ok type, .ok description =>
        .normal { s with map := some { m with markers := m.markers ++
          [{ coords := coords, className := toStr J type ++ "-popup",
             content := icon type ++ " " ++ toStr J description }] } }
      | .error e, _ => .throw e s
      | _, .error e => .throw e s

/-- The method `App._hideForm`: the four inputs are set to a single space and
the form gets the class `hidden`.  The two assignments to
`form.getElementsByClassName.display` set a property of a function object and
have no effect on the page. -/
def _hideForm (s : App α) : App α :=
  { s with page := { s.page with
      inputDistance := " ", inputCadence := " ", inputDuration := " ", inputElevation := " ",
      formHidden := true } }

/-- The method `App._showForm`. -/
def _showForm (latlng : α × α) (s : App α) : App α :=
  { s with mapEvent := some latlng, page := { s.page with formHidden := false } }

/-- The method `App._setLocalStorage`. -/
def _setLocalStorage (s : App α) : App α :=
  let text := JSON.stringify J (.arr s.workouts)
  emit (.setItem "workouts" text) { s with page := { s.page with localStorage := some text } }

/-- The loop `this.#workouts.forEach(work => this._renderWorkout(work))`. -/
def forEachRenderWorkout : List (JVal α) → App α → Completion (App α)
  | [], s => .normal s
  | work :: rest, s => (_renderWorkout J work s).andThen (forEachRenderWorkout rest)

/-- The loop `this.#workouts.forEach(work => this._renderWorkoutMaker(work))`. -/
def forEachRenderWorkoutMaker : List (JVal α) → App α → Completion (App α)
  | [], s => .normal s
  | work :: rest, s => (_renderWorkoutMaker J work s).andThen (forEachRenderWorkoutMaker rest)

/-- The method `App._getLocalStorage`.  When the stored document is truthy and
not an array, `forEach` is not a function; the log field of the state reported
with that throw is the one before the call. -/
def _getLocalStorage (s : App α) : Completion (App α) :=
  match JSON.parse s.page.localStorage with
  | .error e => .throw e s
  | .ok data =>
    if !toBoolean J data then .normal s
    else
      match data with
      | .arr works => forEachRenderWorkout J works { s with workouts := works }
      | _ => .throw (.typeError "this.#workouts.forEach is not a function") s

/-- The method `App._loadMap`, called with the coordinates of the position. -/
def _loadMap (latitude longitude : α) (s : App α) : Completion (App α) :=
  let coords : JVal α := .arr [.num latitude, .num longitude]
  forEachRenderWorkoutMaker J s.workouts
    { s with map := some { center := coords, zoom := s.mapZoomLevel, markers := [] } }

/-- The constructor `App`: the field initialisers, `_getPosition` (whose
answer arrives later through `_loadMap`), `_getLocalStorage`, and the
registration of the event handlers. -/
def App.constructor (page : Page α) : Completion (App α) :=
  _getLocalStorage J
    { map := none, mapEvent := none, mapZoomLevel := J.ofNat 13, workouts := [], page := page }

/-- The method `App._reset`. -/
def _reset (s : App α) : App α :=
  emit .reload (emit (.removeItem "workouts") { s with page := { s.page with localStorage := none } })

/-- The call `this.#workouts.find(work => work.id === id)`. -/
def find (works : List (JVal α)) (id : String) : Except JSError (JVal α) :=
  match works with
  | [] => .ok .undefined
  | work :: rest =>
    match getProp work "id" with
    | .error e => .error e
    | .ok wid => if strictEqStr wid id then .ok work else find rest id

/-- The method `App._moveTopup`.  The event is given by the `data-id` of the
closest element of class `workout`, if there is one.  The call
`workout.click()` is commented out in the source. -/
def _moveTopup (target : Option String) (s : App α) : Completion (App α) :=
  match target with
  | none => .normal s
  | some id =>
    match find s.workouts id with
    | .error e => .throw e s
    | .ok workout =>
      match s.map with
      | none => .throw (.typeError "Cannot read properties of undefined (reading setView)") s
      | some m =>
        match getProp workout "coords" with
        | .error e => .throw e s
        | .ok coords =>
          .normal { s with map := some { m with center := coords, zoom := s.mapZoomLevel } }

/-- The statements of `_newWorkout` after the two `if` blocks. -/
def _newWorkout.finish (workout : JVal α) (s : App α) : Completion (App α) :=
  (_renderWorkoutMaker J workout (_hideForm s)).andThen fun s1 =>
    (_renderWorkout J workout s1).andThen fun s2 =>
      .normal (_setLocalStorage J s2)

/-- The block of `_newWorkout` for the type `cycling`, and what follows it.
The inner `if` has an empty body: its condition is evaluated and nothing is
done with it. -/
def _newWorkout.cycling (clk : Clock) (type : String) (distance duration lat lng : α)
    (workout : JVal α) (s : App α) : Completion (App α) :=
  if type = "cycling" then
    let elevation := J.Number s.page.inputElevation
    let _invalid :=
      !validInputs J [distance, duration, elevation] || !allPositive J [distance, duration]
    match Cycling J clk (.arr [.num lat, .num lng]) distance duration elevation with
    | .error e => .throw e s
    | .ok workout =>
      _newWorkout.finish J workout { s with workouts := s.workouts ++ [workout] }
  else _newWorkout.finish J workout s

/-- The method `App._newWorkout`, run at the clock reading `clk`. -/
def _newWorkout (clk : Clock) (s : App α) : Completion (App α) :=
  let type := s.page.inputType
  let distance := J.Number s.page.inputDistance
  let duration := J.Number s.page.inputDuration
  match s.mapEvent with
  | none => .throw (.typeError "Cannot read properties of undefined (reading latlng)") s
  | some (lat, lng) =>
    if type = "running" then
      let cadence := J.Number s.page.inputCadence
      if !validInputs J [distance, duration, cadence] ||
          !allPositive J [distance, duration, cadence] then
        .normal (emit (.alert "Input have to be positive.") s)
      else
        match Running J clk (.arr [.num lat, .num lng]) distance duration cadence with
        | .error e => .throw e s
        | .ok workout =>
          _newWorkout.cycling J clk type distance duration lat lng workout
            { s with workouts := s.workouts ++ [workout] }
    else _newWorkout.cycling J clk type distance duration lat lng .undefined s

end Application

/-! ## Auxiliary definitions for the statements -/

section Auxiliary

variable {α : Type} (J : JSNum α)

/-- The properties of the object that `new Running(..)` returns. -/
def runningProps (clk : Clock) (coords : JVal α) (distance duration cadence : α) :
    List (String × JVal α) :=
  [("date", .date clk.date),
   ("id", .str (sliceLast (Nat.repr clk.now) 10)),
   ("clicks", .num (J.ofNat 0)),
   ("coords", coords),
   ("distance", .num distance),
   ("duration", .num duration),
   ("type", .str "running"),
   ("cadence", .num cadence),
   ("pace", .num (J.div duration distance)),
   ("description", .str ("Running on " ++ monthsAt clk.date.month.val ++ " " ++
      Nat.repr clk.date.day))]

/-- The properties of the object that `new Cycling(..)` returns. -/
def cyclingProps (clk : Clock) (coords : JVal α) (distance duration elevationGain : α) :
    List (String × JVal α) :=
  [("date", .date clk.date),
   ("id", .str (sliceLast (Nat.repr clk.now) 10)),
   ("clicks", .num (J.ofNat 0)),
   ("coords", coords),
   ("distance", .num distance),
   ("duration", .num duration),
   ("type", .str "cycling"),
   ("elevationGain", .num elevationGain),
   ("speed", .num (J.div distance (J.div duration (J.ofNat 60)))),
   ("description", .str ("Cycling on " ++ monthsAt clk.date.month.val ++ " " ++
      Nat.repr clk.date.day))]

/-- The marker that `_renderWorkoutMaker` makes for an object with the given properties. -/
def markerOf (ps : List (String × JVal α)) : Marker α :=
  { coords := lookup ps "coords", className := toStr J (lookup ps "type") ++ "-popup",
    content := icon (lookup ps "type") ++ " " ++ toStr J (lookup ps "description") }

/-- The state after the closing statements of `_newWorkout` (hide the form, add
the marker, insert the list item `html`, persist) for a workout object with the
properties `ps`, on the map `m`. -/
def finished (ps : List (String × JVal α)) (html : String) (m : LMap α) (s : App α) : App α :=
  _setLocalStorage J (emit (.insertAdjacentHTML "afterend" html)
    { _hideForm s with map := some { m with markers := m.markers ++ [markerOf J ps] } })

/-- An entry as `_newWorkout` pushes it, recorded at finite coordinates with a
finite distance and a finite duration. -/
def FiniteEntry (w : JVal α) : Prop :=
  ∃ (clk : Clock) (lat lng distance duration metric : α),
    J.isFinite lat = true ∧ J.isFinite lng = true ∧
    J.isFinite distance = true ∧ J.isFinite duration = true ∧
    (w = .obj .running (runningProps J clk (.arr [.num lat, .num lng]) distance duration metric) ∨
     w = .obj .cycling (cyclingProps J clk (.arr [.num lat, .num lng]) distance duration metric))

end Auxiliary

/-! ## Concrete inputs -/

/-- A clock reading on 5 November. -/
def clk0 : Clock :=
  { date := { time := 1762300800123, month := 10, day := 5,
              iso := "2025-11-05T00:00:00.123Z", text := "Wed Nov 05 2025 00:00:00 GMT+0000" },
    now := 1762300800124 }

/-- The clicked location (51.5, -0.12). -/
def latlng0 : Dec × Dec := (Dec.fin 103 2, Dec.fin (-3) 25)

/-- A loaded map without markers. -/
def map0 : LMap Dec :=
  { center := .arr [.num (Dec.fin 103 2), .num (Dec.fin (-3) 25)], zoom := Dec.fin 13 1,
    markers := [] }

/-- A page with the given form values, nothing stored and no call made yet. -/
def page0 (type distance duration cadence elevation : String) : Page Dec :=
  { inputType := type, inputDistance := distance, inputDuration := duration,
    inputCadence := cadence, inputElevation := elevation, formHidden := false,
    localStorage := none, effects := [] }

/-- The controller with an empty log after the map was loaded and clicked at
`latlng0`, the form holding the given values. -/
def appClicked (type distance duration cadence elevation : String) : App Dec :=
  { map := some map0, mapEvent := some latlng0, mapZoomLevel := Dec.fin 13 1, workouts := [],
    page := page0 type distance duration cadence elevation }

/-- The controller right after construction on a page with nothing stored: no
position has arrived and no map click has been captured. -/
def appFresh (type distance duration cadence elevation : String) : App Dec :=
  { map := none, mapEvent := none, mapZoomLevel := Dec.fin 13 1, workouts := [],
    page := page0 type distance duration cadence elevation }

/-- The controller after one valid running submission: 5.2 km in 26 min at 178 spm. -/
def appOneRun : App Dec :=
  (_newWorkout decNum clk0 (appClicked "running" "5.2" "26" "178" "")).state

set_option maxRecDepth 100000

/-! ## Lemmas on the classes and on `_newWorkout` -/

section Lemmas

variable {α : Type} (J : JSNum α)

/-- The constructor `Running` returns the object with the properties `runningProps`. -/
theorem Running_eq (clk : Clock) (coords : JVal α) (distance duration cadence : α) :
    Running J clk coords distance duration cadence =
      .ok (.obj .running (runningProps J clk coords distance duration cadence)) := rfl

/-- The constructor `Cycling` returns the object with the properties `cyclingProps`. -/
theorem Cycling_eq (clk : Clock) (coords : JVal α) (distance duration elevationGain : α) :
    Cycling J clk coords distance duration elevationGain =
      .ok (.obj .cycling (cyclingProps J clk coords distance duration elevationGain)) := rfl

/-- Every month index is inside the table `months`. -/
theorem months_lookup (i : Fin 12) : months[i.val]? = some (monthsAt i.val) := by
  revert i; decide

/-- The list item of a `Running` object is built without a throw. -/
theorem html_running (clk : Clock) (coords : JVal α) (distance duration cadence : α) :
    ∃ html, _renderWorkout.html J
      (.obj .running (runningProps J clk coords distance duration cadence)) = .ok html :=
  ⟨_, rfl⟩

/-- The list item of a `Cycling` object is built without a throw. -/
theorem html_cycling (clk : Clock) (coords : JVal α) (distance duration elevationGain : α) :
    ∃ html, _renderWorkout.html J
      (.obj .cycling (cyclingProps J clk coords distance duration elevationGain)) = .ok html :=
  ⟨_, rfl⟩

/-- On a loaded map `_renderWorkoutMaker` adds the marker of an object. -/
theorem renderWorkoutMaker_obj (p : Proto) (ps : List (String × JVal α)) (s : App α) (m : LMap α)
    (hmap : s.map = some m) :
    _renderWorkoutMaker J (.obj p ps) s =
      .normal { s with map := some { m with markers := m.markers ++ [markerOf J ps] } } := by
  simp [_renderWorkoutMaker, getProp, hmap, markerOf]

/-- The closing statements of `_newWorkout` complete for an object on a loaded map. -/
theorem finish_obj (p : Proto) (ps : List (String × JVal α)) (html : String) (s : App α)
    (m : LMap α) (hmap : s.map = some m)
    (hhtml : _renderWorkout.html J (.obj p ps) = .ok html) :
    _newWorkout.finish J (.obj p ps) s = .normal (finished J ps html m s) := by
  have h1 : (_hideForm s).map = some m := by simp [_hideForm, hmap]
  simp [_newWorkout.finish, renderWorkoutMaker_obj J p ps _ m h1, Completion.andThen,
    _renderWorkout, hhtml, finished]

/-- A rejected running submission: only the alert is raised. -/
theorem newWorkout_running_invalid (clk : Clock) (s : App α) (lat lng : α)
    (hev : s.mapEvent = some (lat, lng)) (htype : s.page.inputType = "running")
    (hbad : (!validInputs J [J.Number s.page.inputDistance, J.Number s.page.inputDuration,
        J.Number s.page.inputCadence] ||
      !allPositive J [J.Number s.page.inputDistance, J.Number s.page.inputDuration,
        J.Number s.page.inputCadence]) = true) :
    _newWorkout J clk s = .normal (emit (.alert "Input have to be positive.") s) := by
  unfold _newWorkout
  simp only [hev, htype, hbad, if_true]

/-- An accepted running submission: the `Running` object is pushed and the
closing statements run. -/
theorem newWorkout_running_valid (clk : Clock) (s : App α) (m : LMap α) (lat lng : α)
    (hmap : s.map = some m) (hev : s.mapEvent = some (lat, lng))
    (htype : s.page.inputType = "running")
    (hgood : (!validInputs J [J.Number s.page.inputDistance, J.Number s.page.inputDuration,
        J.Number s.page.inputCadence] ||
      !allPositive J [J.Number s.page.inputDistance, J.Number s.page.inputDuration,
        J.Number s.page.inputCadence]) = false) :
    ∃ html, _newWorkout J clk s = .normal (finished J
      (runningProps J clk (.arr [.num lat, .num lng]) (J.Number s.page.inputDistance)
        (J.Number s.page.inputDuration) (J.Number s.page.inputCadence)) html m
      { s with workouts := s.workouts ++ [.obj .running
        (runningProps J clk (.arr [.num lat, .num lng]) (J.Number s.page.inputDistance)
          (J.Number s.page.inputDuration) (J.Number s.page.inputCadence))] }) := by
  obtain ⟨html, hhtml⟩ := html_running J clk (.arr [.num lat, .num lng])
    (J.Number s.page.inputDistance) (J.Number s.page.inputDuration) (J.Number s.page.inputCadence)
  refine ⟨html, ?_⟩
  unfold _newWorkout
  simp only [hev, htype, hgood, Running_eq, _newWorkout.cycling]
  simp only [show ¬ ("running" = "cycling") by decide, if_false, Bool.false_eq_true]
  exact finish_obj J _ _ html _ m hmap hhtml

/-- A cycling submission, whatever the inputs: the `Cycling` object is pushed and
the closing statements run. -/
theorem newWorkout_cycling (clk : Clock) (s : App α) (m : LMap α) (lat lng : α)
    (hmap : s.map = some m) (hev : s.mapEvent = some (lat, lng))
    (htype : s.page.inputType = "cycling") :
    ∃ html, _newWorkout J clk s = .normal (finished J
      (cyclingProps J clk (.arr [.num lat, .num lng]) (J.Number s.page.inputDistance)
        (J.Number s.page.inputDuration) (J.Number s.page.inputElevation)) html m
      { s with workouts := s.workouts ++ [.obj .cycling
        (cyclingProps J clk (.arr [.num lat, .num lng]) (J.Number s.page.inputDistance)
          (J.Number s.page.inputDuration) (J.Number s.page.inputElevation))] }) := by
  obtain ⟨html, hhtml⟩ := html_cycling J clk (.arr [.num lat, .num lng])
    (J.Number s.page.inputDistance) (J.Number s.page.inputDuration)
    (J.Number s.page.inputElevation)
  refine ⟨html, ?_⟩
  unfold _newWorkout
  simp only [hev, htype, show ¬ ("cycling" = "running") by decide, if_false,
    _newWorkout.cycling, if_true, Cycling_eq]
  exact finish_obj J _ _ html _ m hmap hhtml

/-- The closing statements of `_newWorkout` leave the log as it is. -/
theorem finished_workouts (ps : List (String × JVal α)) (html : String) (m : LMap α)
    (s : App α) : (finished J ps html m s).workouts = s.workouts := rfl

end Lemmas
/-! ## The claims -/

/-- C8: for every clock reading, with month index `m` and day `d`, the
description of a `Running` workout is `Running on `, the `m`-th month name, a
space and `d`, and that of a `Cycling` workout the same after `Cycling on `,
`Running` and `Cycling` being the types with the first letter in upper case;
the month table has 12 entries and the lookup at `m` is in bounds. -/
theorem C8_description {α : Type} (J : JSNum α) (clk : Clock) (coords : JVal α)
    (distance duration metric : α) :
    months.length = 12 ∧
    capitalized J (.str "running") = .ok "Running" ∧
    capitalized J (.str "cycling") = .ok "Cycling" ∧
    ∃ name, months[clk.date.month.val]? = some name ∧
      (∃ w, Running J clk coords distance duration metric = .ok w ∧
        getProp w "type" = .ok (.str "running") ∧
        getProp w "description" =
          .ok (.str ("Running on " ++ name ++ " " ++ Nat.repr clk.date.day))) ∧
      (∃ w, Cycling J clk coords distance duration metric = .ok w ∧
        getProp w "type" = .ok (.str "cycling") ∧
        getProp w "description" =
          .ok (.str ("Cycling on " ++ name ++ " " ++ Nat.repr clk.date.day))) :=
  ⟨rfl, rfl, rfl, monthsAt clk.date.month.val, months_lookup clk.date.month,
    ⟨_, Running_eq J clk coords distance duration metric, rfl, rfl⟩,
    ⟨_, Cycling_eq J clk coords distance duration metric, rfl, rfl⟩⟩

/-- C2: for type `running`, after a map click at `(lat, lng)`: when distance,
duration and cadence are all finite and greater than zero, `_newWorkout` appends
exactly one `Running` workout at the end of the log, whose pace is
`duration / distance`; otherwise it returns with the log, the map and the store
unchanged, and its only call to the browser is the alert. -/
theorem C2_running_record {α : Type} (J : JSNum α) (clk : Clock) (s : App α) (m : LMap α)
    (lat lng : α) (hmap : s.map = some m) (hev : s.mapEvent = some (lat, lng))
    (htype : s.page.inputType = "running") :
    let distance := J.Number s.page.inputDistance
    let duration := J.Number s.page.inputDuration
    let cadence := J.Number s.page.inputCadence
    let ok : Prop := (J.isFinite distance = true ∧ J.isFinite duration = true ∧
        J.isFinite cadence = true) ∧
      (J.lt (J.ofNat 0) distance = true ∧ J.lt (J.ofNat 0) duration = true ∧
        J.lt (J.ofNat 0) cadence = true)
    (ok → ∃ w s1, Running J clk (.arr [.num lat, .num lng]) distance duration cadence = .ok w ∧
        _newWorkout J clk s = .normal s1 ∧
        s1.workouts = s.workouts ++ [w] ∧
        s1.workouts.length = s.workouts.length + 1 ∧
        getProp w "type" = .ok (.str "running") ∧
        getProp w "pace" = .ok (.num (J.div duration distance))) ∧
    (¬ ok → ∃ s1, _newWorkout J clk s = .normal s1 ∧
        s1.workouts = s.workouts ∧ s1.map = s.map ∧
        s1.page.localStorage = s.page.localStorage ∧
        s1.page.effects = s.page.effects ++ [.alert "Input have to be positive."]) := by
  intro distance duration cadence ok
  constructor
  · intro h
    have hgood : (!validInputs J [distance, duration, cadence] ||
        !allPositive J [distance, duration, cadence]) = false := by
      obtain ⟨⟨h1, h2, h3⟩, h4, h5, h6⟩ := h
      simp [validInputs, allPositive, h1, h2, h3, h4, h5, h6]
    obtain ⟨html, hrun⟩ := newWorkout_running_valid J clk s m lat lng hmap hev htype hgood
    refine ⟨_, _, Running_eq J clk _ distance duration cadence, hrun, rfl, ?_, rfl, rfl⟩
    simp [finished_workouts]
  · intro h
    have hbad : (!validInputs J [distance, duration, cadence] ||
        !allPositive J [distance, duration, cadence]) = true := by
      by_contra hc
      apply h
      simp [validInputs, allPositive] at hc
      exact ⟨⟨hc.1.1, hc.1.2.1, hc.1.2.2⟩, hc.2.1, hc.2.2.1, hc.2.2.2⟩
    exact ⟨_, newWorkout_running_invalid J clk s lat lng hev htype hbad, rfl, rfl, rfl, rfl⟩

/-- Witness of C2: 5.2 km in 26 min at 178 spm is recorded as one workout. -/
theorem C2_running_record_witness :
    ∃ w s1, _newWorkout decNum clk0 (appClicked "running" "5.2" "26" "178" "") = .normal s1 ∧
      s1.workouts = [w] ∧ getProp w "pace" = .ok (.num (Dec.fin 5 1)) := by
  obtain ⟨w, s1, _, h2, h3, _, _, h6⟩ :=
    (C2_running_record decNum clk0 (appClicked "running" "5.2" "26" "178" "") map0
      latlng0.1 latlng0.2 rfl rfl rfl).1 (by decide)
  exact ⟨w, s1, h2, h3, h6⟩

/-- C3: for type `cycling`, after a map click: for every distance and duration
greater than zero and every finite elevation gain, `_newWorkout` completes,
appends exactly one `Cycling` workout, and its speed is
`distance / (duration / 60)`; with distance 20, duration 60 and elevation -150
the speed is exactly 20. -/
theorem C3_cycling_record :
    (∀ {α : Type} (J : JSNum α) (clk : Clock) (s : App α) (m : LMap α) (lat lng : α),
      s.map = some m → s.mapEvent = some (lat, lng) → s.page.inputType = "cycling" →
      J.lt (J.ofNat 0) (J.Number s.page.inputDistance) = true →
      J.lt (J.ofNat 0) (J.Number s.page.inputDuration) = true →
      J.isFinite (J.Number s.page.inputElevation) = true →
      ∃ w s1, Cycling J clk (.arr [.num lat, .num lng]) (J.Number s.page.inputDistance)
          (J.Number s.page.inputDuration) (J.Number s.page.inputElevation) = .ok w ∧
        _newWorkout J clk s = .normal s1 ∧
        s1.workouts = s.workouts ++ [w] ∧
        s1.workouts.length = s.workouts.length + 1 ∧
        getProp w "type" = .ok (.str "cycling") ∧
        getProp w "elevationGain" = .ok (.num (J.Number s.page.inputElevation)) ∧
        getProp w "speed" = .ok (.num (J.div (J.Number s.page.inputDistance)
          (J.div (J.Number s.page.inputDuration) (J.ofNat 60))))) ∧
    (∃ w s1, _newWorkout decNum clk0 (appClicked "cycling" "20" "60" "" "-150") = .normal s1 ∧
      s1.workouts = [w] ∧
      getProp w "distance" = .ok (.num (Dec.fin 20 1)) ∧
      getProp w "duration" = .ok (.num (Dec.fin 60 1)) ∧
      getProp w "elevationGain" = .ok (.num (Dec.fin (-150) 1)) ∧
      getProp w "speed" = .ok (.num (Dec.fin 20 1))) := by
  constructor
  · intro α J clk s m lat lng hmap hev htype _ _ _
    obtain ⟨html, hrun⟩ := newWorkout_cycling J clk s m lat lng hmap hev htype
    refine ⟨_, _, Cycling_eq J clk _ _ _ _, hrun, rfl, ?_, rfl, rfl, rfl⟩
    simp [finished_workouts]
  · obtain ⟨html, hrun⟩ := newWorkout_cycling decNum clk0
      (appClicked "cycling" "20" "60" "" "-150") map0 latlng0.1 latlng0.2 rfl rfl rfl
    exact ⟨_, _, hrun, rfl, rfl, rfl, rfl, rfl⟩

/-- Witness of C3: a downhill ride of 20 km in 60 min is recorded. -/
theorem C3_cycling_record_witness :
    ∃ s1, _newWorkout decNum clk0 (appClicked "cycling" "20" "60" "" "-150") = .normal s1 ∧
      s1.workouts.length = 1 := by
  obtain ⟨_, s1, _, h2, _, h4, _⟩ :=
    C3_cycling_record.1 decNum clk0 (appClicked "cycling" "20" "60" "" "-150") map0
      latlng0.1 latlng0.2 rfl rfl rfl (by decide) (by decide) (by decide)
  exact ⟨s1, h2, h4⟩

/-- C9, counterexample: with no map click captured, a submission of valid
running inputs makes `_newWorkout` throw a `TypeError`; and after a map click, a
type that is neither `running` nor `cycling` makes it throw once the form is
hidden, on reading `coords` of the workout that was never made. -/
theorem C9_counterexample :
    _newWorkout decNum clk0 (appFresh "running" "5" "30" "170" "") =
      .throw (.typeError "Cannot read properties of undefined (reading latlng)")
        (appFresh "running" "5" "30" "170" "") ∧
    (_newWorkout decNum clk0 (appFresh "running" "5" "30" "170" "")).threw = true ∧
    _newWorkout decNum clk0 (appClicked "walking" "5" "30" "170" "") =
      .throw (.typeError "Cannot read properties of undefined (reading coords)")
        (_hideForm (appClicked "walking" "5" "30" "170" "")) :=
  ⟨rfl, rfl, rfl⟩

/-- C9, amended: in every state in which a map click has been captured on the
loaded map, for type `running` or `cycling` and every raw distance, duration
and metric, `_newWorkout` completes normally, either with one workout appended
to the log or with the log unchanged and the alert raised. -/
theorem C9_completes_after_click {α : Type} (J : JSNum α) (clk : Clock) (s : App α)
    (m : LMap α) (lat lng : α) (hmap : s.map = some m) (hev : s.mapEvent = some (lat, lng))
    (htype : s.page.inputType = "running" ∨ s.page.inputType = "cycling") :
    ∃ s1, _newWorkout J clk s = .normal s1 ∧
      ((∃ w, s1.workouts = s.workouts ++ [w]) ∨
       (s1.workouts = s.workouts ∧
        s1.page.effects = s.page.effects ++ [.alert "Input have to be positive."])) := by
  rcases htype with htype | htype
  · cases hc : (!validInputs J [J.Number s.page.inputDistance, J.Number s.page.inputDuration,
        J.Number s.page.inputCadence] ||
      !allPositive J [J.Number s.page.inputDistance, J.Number s.page.inputDuration,
        J.Number s.page.inputCadence])
    · obtain ⟨html, hrun⟩ := newWorkout_running_valid J clk s m lat lng hmap hev htype hc
      exact ⟨_, hrun, Or.inl ⟨_, rfl⟩⟩
    · exact ⟨_, newWorkout_running_invalid J clk s lat lng hev htype hc, Or.inr ⟨rfl, rfl⟩⟩
  · obtain ⟨html, hrun⟩ := newWorkout_cycling J clk s m lat lng hmap hev htype
    exact ⟨_, hrun, Or.inl ⟨_, rfl⟩⟩

/-- Witness of C9 amended: an invalid running submission after a click returns
normally. -/
theorem C9_completes_after_click_witness :
    ∃ s1, _newWorkout decNum clk0 (appClicked "running" "abc" "30" "170" "") = .normal s1 :=
  (C9_completes_after_click decNum clk0 (appClicked "running" "abc" "30" "170" "") map0
    latlng0.1 latlng0.2 rfl rfl (Or.inl rfl)).imp fun _ h => h.1

/-- C1, at the failing input: a cycling submission with distance -5 fails the
positivity check, and still `_newWorkout` returns normally with the log one
longer, the new entry having distance -5, and the only calls to the browser are
the list insertion and the store write (no alert).  The same values submitted as
a running workout are rejected with the alert and nothing else. -/
theorem C1_cycling_invalid_recorded :
    allPositive decNum [decNum.Number "-5", decNum.Number "60"] = false ∧
    _newWorkout decNum clk0 (appClicked "running" "-5" "60" "100" "") =
      .normal (emit (.alert "Input have to be positive.")
        (appClicked "running" "-5" "60" "100" "")) ∧
    ∃ w s1 html text,
      _newWorkout decNum clk0 (appClicked "cycling" "-5" "60" "" "100") = .normal s1 ∧
      s1.workouts = (appClicked "cycling" "-5" "60" "" "100").workouts ++ [w] ∧
      s1.workouts.length = (appClicked "cycling" "-5" "60" "" "100").workouts.length + 1 ∧
      getProp w "distance" = .ok (.num (Dec.fin (-5) 1)) ∧
      s1.page.effects = [.insertAdjacentHTML "afterend" html, .setItem "workouts" text] := by
  refine ⟨by decide, rfl, ?_⟩
  obtain ⟨html, hrun⟩ := newWorkout_cycling decNum clk0
    (appClicked "cycling" "-5" "60" "" "100") map0 latlng0.1 latlng0.2 rfl rfl rfl
  exact ⟨_, _, html, _, hrun, rfl, rfl, rfl, rfl⟩

section Lookup

variable {α : Type}

/-- The strict equality against a string holds exactly for that string value. -/
theorem strictEqStr_iff (v : JVal α) (s : String) : strictEqStr v s = true ↔ v = .str s := by
  cases v <;> simp [strictEqStr]

/-- When no entry has the id, `find` throws or returns `undefined`. -/
theorem find_absent (works : List (JVal α)) (id : String)
    (hno : ∀ w ∈ works, getProp w "id" ≠ .ok (.str id)) :
    find works id = .ok .undefined ∨ ∃ e, find works id = .error e := by
  induction works with
  | nil => exact Or.inl rfl
  | cons w rest ih =>
    have hrest := ih (fun x hx => hno x (List.mem_cons_of_mem _ hx))
    have hw := hno w (List.mem_cons_self _ _)
    unfold find
    cases hg : getProp w "id" with
    | error e => exact Or.inr ⟨e, rfl⟩
    | ok wid =>
      have hne : strictEqStr wid id = false := by
        cases hs : strictEqStr wid id with
        | false => rfl
        | true =>
          have := (strictEqStr_iff wid id).1 hs
          rw [this] at hg
          exact absurd hg hw
      simpa [hne] using hrest

/-- When every entry is an object and none has the id, `find` returns `undefined`. -/
theorem find_absent_obj (works : List (JVal α)) (id : String)
    (hobj : ∀ w ∈ works, ∃ p ps, w = .obj p ps)
    (hno : ∀ w ∈ works, getProp w "id" ≠ .ok (.str id)) :
    find works id = .ok .undefined := by
  induction works with
  | nil => rfl
  | cons w rest ih =>
    have hrest := ih (fun x hx => hobj x (List.mem_cons_of_mem _ hx))
      (fun x hx => hno x (List.mem_cons_of_mem _ hx))
    have hw := hno w (List.mem_cons_self _ _)
    obtain ⟨p, ps, rfl⟩ := hobj w (List.mem_cons_self _ _)
    unfold find
    have hne : strictEqStr (lookup ps "id") id = false := by
      cases hs : strictEqStr (lookup ps "id") id with
      | false => rfl
      | true =>
        have := (strictEqStr_iff _ id).1 hs
        exact absurd (by simp [getProp, this]) hw
    simpa [getProp, hne] using hrest

/-- In every case `_moveTopup` ends in the state with the log it started with. -/
theorem moveTopup_workouts (target : Option String) (s : App α) :
    (_moveTopup target s).state.workouts = s.workouts := by
  unfold _moveTopup
  cases target with
  | none => rfl
  | some id =>
    simp only
    cases find s.workouts id with
    | error e => rfl
    | ok workout =>
      simp only
      cases s.map with
      | none => rfl
      | some m =>
        simp only
        cases getProp workout "coords" <;> rfl

/-- When `find` returns an object on a loaded map, `_moveTopup` only sets the view. -/
theorem moveTopup_found (id : String) (s : App α) (m : LMap α) (p : Proto)
    (ps : List (String × JVal α)) (hmap : s.map = some m)
    (hfind : find s.workouts id = .ok (.obj p ps)) :
    _moveTopup (some id) s =
      .normal { s with map := some { m with center := lookup ps "coords",
                                            zoom := s.mapZoomLevel } } := by
  simp [_moveTopup, hfind, hmap, getProp]

end Lookup

/-- C5: for every state and every id that no entry of the log has,
`_moveTopup` fails: it throws, and the state at the throw, the log included, is
the state before the call.  On a loaded map with a log of objects the
exception is the `TypeError` of reading `coords` of the `undefined` that `find`
returned. -/
theorem C5_unknown_id_throws {α : Type} (s : App α) (id : String)
    (hno : ∀ w ∈ s.workouts, getProp w "id" ≠ .ok (.str id)) :
    (∃ e, _moveTopup (some id) s = .throw e s) ∧
    (_moveTopup (some id) s).state.workouts = s.workouts ∧
    ((∀ w ∈ s.workouts, ∃ p ps, w = .obj p ps) → s.map ≠ none →
      _moveTopup (some id) s =
        .throw (.typeError "Cannot read properties of undefined (reading coords)") s) := by
  refine ⟨?_, moveTopup_workouts _ _, ?_⟩
  · rcases find_absent s.workouts id hno with h | ⟨e, h⟩
    · cases hm : s.map with
      | none =>
        exact ⟨.typeError "Cannot read properties of undefined (reading setView)",
          by simp [_moveTopup, h, hm]⟩
      | some m =>
        exact ⟨.typeError "Cannot read properties of undefined (reading coords)",
          by simp [_moveTopup, h, hm, getProp]⟩
    · exact ⟨e, by simp [_moveTopup, h]⟩
  · intro hobj hmap
    have h := find_absent_obj s.workouts id hobj hno
    cases hm : s.map with
    | none => exact absurd hm hmap
    | some m => simp [_moveTopup, h, hm, getProp]

/-- Witness of C5: the log holds one workout with id 2300800124; selecting the
id 0000000000 throws and leaves the state as it was. -/
theorem C5_unknown_id_throws_witness :
    _moveTopup (some "0000000000") appOneRun =
      .throw (.typeError "Cannot read properties of undefined (reading coords)") appOneRun :=
  (C5_unknown_id_throws appOneRun "0000000000" (by
    intro w hw
    have hw1 : w = .obj .running (runningProps decNum clk0
        (.arr [.num latlng0.1, .num latlng0.2]) (Dec.fin 26 5) (Dec.fin 26 1) (Dec.fin 178 1)) :=
      List.mem_singleton.1 hw
    rw [hw1]
    intro h
    injection h with h
    injection h with h
    exact absurd h (by decide))).2.2
    (by
      intro w hw
      exact ⟨_, _, List.mem_singleton.1 hw⟩)
    (by
      intro h
      exact Option.noConfusion h)

/-- C6, counterexample: the log holds one workout with id 2300800124 and
`clicks` 0; selecting that id completes normally and the workout still has
`clicks` 0, which is not 0 + 1. -/
theorem C6_counterexample :
    ∃ w s1 w1, appOneRun.workouts = [w] ∧
      getProp w "id" = .ok (.str "2300800124") ∧
      getProp w "clicks" = .ok (.num (Dec.fin 0 1)) ∧
      _moveTopup (some "2300800124") appOneRun = .normal s1 ∧
      s1.workouts = [w1] ∧
      getProp w1 "clicks" = .ok (.num (Dec.fin 0 1)) ∧
      decNum.add (Dec.fin 0 1) (decNum.ofNat 1) = Dec.fin 1 1 ∧
      getProp w1 "clicks" ≠ .ok (.num (decNum.add (Dec.fin 0 1) (decNum.ofNat 1))) := by
  refine ⟨_, _, _, rfl, rfl, rfl, rfl, rfl, rfl, by decide, ?_⟩
  intro h
  injection h with h
  injection h with h
  exact absurd h (by decide)

/-- C6, amended: for every state and every id present in the log (on a loaded
map), `_moveTopup` completes normally and leaves every entry of the log
unchanged, `clicks` included: it only sets the map view to the coordinates of
the matching workout.  Every `Running` and `Cycling` workout is constructed with
`clicks` 0. -/
theorem C6_select_keeps_clicks {α : Type} (J : JSNum α) (s : App α) (m : LMap α)
    (id : String) (p : Proto) (ps : List (String × JVal α))
    (hmap : s.map = some m) (hfind : find s.workouts id = .ok (.obj p ps)) :
    (∃ s1, _moveTopup (some id) s = .normal s1 ∧ s1.workouts = s.workouts ∧
      s1.map = some { m with center := lookup ps "coords", zoom := s.mapZoomLevel } ∧
      s1.page = s.page) ∧
    (∀ (clk : Clock) (coords : JVal α) (distance duration metric : α),
      (∃ w, Running J clk coords distance duration metric = .ok w ∧
        getProp w "clicks" = .ok (.num (J.ofNat 0))) ∧
      (∃ w, Cycling J clk coords distance duration metric = .ok w ∧
        getProp w "clicks" = .ok (.num (J.ofNat 0)))) :=
  ⟨⟨_, moveTopup_found id s m p ps hmap hfind, rfl, rfl, rfl⟩,
    fun clk coords distance duration metric =>
      ⟨⟨_, Running_eq J clk coords distance duration metric, rfl⟩,
       ⟨_, Cycling_eq J clk coords distance duration metric, rfl⟩⟩⟩

/-- Witness of C6 amended: selecting the one recorded workout leaves the log as
it is. -/
theorem C6_select_keeps_clicks_witness :
    ∃ s1, _moveTopup (some "2300800124") appOneRun = .normal s1 ∧
      s1.workouts = appOneRun.workouts :=
  (C6_select_keeps_clicks decNum appOneRun _ "2300800124" .running
    (runningProps decNum clk0 (.arr [.num latlng0.1, .num latlng0.2]) (Dec.fin 26 5)
      (Dec.fin 26 1) (Dec.fin 178 1)) rfl rfl).1.imp fun _ h => ⟨h.1, h.2.1⟩

/-- C7: for every state, whatever the store holds, `_reset` erases the item
`workouts` (and reloads the page); parsing the absent item gives `null`; on
every page with that store the constructor `App` completes normally with an
empty log, and `_getLocalStorage` in any state with the item absent returns
normally without a change. -/
theorem C7_reset_then_load {α : Type} (J : JSNum α) (s : App α) (page1 : Page α) (t : App α) :
    (_reset s).page.localStorage = none ∧
    (_reset s).page.effects = s.page.effects ++ [.removeItem "workouts", .reload] ∧
    (_reset s).workouts = s.workouts ∧
    JSON.parse (_reset s).page.localStorage = .ok .null ∧
    (∃ s1, App.constructor J { page1 with localStorage := (_reset s).page.localStorage } =
        .normal s1 ∧ s1.workouts = [] ∧ s1.page.effects = page1.effects) ∧
    _getLocalStorage J { t with page := { t.page with localStorage := none } } =
        .normal { t with page := { t.page with localStorage := none } } := by
  refine ⟨rfl, ?_, rfl, rfl, ⟨_, rfl, rfl, rfl⟩, rfl⟩
  simp [_reset, emit]

/-- Overwriting `key` does not change the value of another key. -/
theorem lookup_assign_ne {α : Type} (ps : List (String × JVal α)) (key other : String)
    (v : JVal α) (h : key ≠ other) : lookup (assign ps key v) other = lookup ps other := by
  induction ps with
  | nil => simp [assign, lookup, h]
  | cons q rest ih =>
    obtain ⟨k, w⟩ := q
    by_cases hk : k = key
    · subst hk
      simp [assign, lookup, h]
    · by_cases ho : k = other
      · subst ho
        simp [assign, lookup, hk]
      · simp [assign, lookup, hk, ho, ih]

/-- C10, at the failing input: the list item of a running workout of 5 km in 60
min shows the distance 5 and, in the row of unit `min`, the constant 24; and
for every object the list item is the same whatever its `duration` is. -/
theorem C10_duration_not_shown :
    (∀ {α : Type} (J : JSNum α) (p : Proto) (ps : List (String × JVal α)) (v : JVal α),
      _renderWorkout.html J (.obj p (assign ps "duration" v)) =
        _renderWorkout.html J (.obj p ps)) ∧
    _renderWorkout.html decNum (.obj .running (runningProps decNum clk0
        (.arr [.num latlng0.1, .num latlng0.2]) (Dec.fin 5 1) (Dec.fin 60 1) (Dec.fin 170 1))) =
      .ok ("\n" ++
      "  <li class=\"workout workout--running\" data-id=2300800124>\n" ++
      "    <h2 class=\"workout__title\">Running on November 5</h2>\n" ++
      "    <div class=\"workout__details\">\n" ++
      "      <span class=\"workout__icon\">🏃\u200d♂\ufe0f</span>\n" ++
      "      <span class=\"workout__value\">5</span>\n" ++
      "      <span class=\"workout__unit\">km</span>\n" ++
      "    </div>\n" ++
      "    <div class=\"workout__details\">\n" ++
      "      <span class=\"workout__icon\">⏱</span>\n" ++
      "      <span class=\"workout__value\">24</span>\n" ++
      "      <span class=\"workout__unit\">min</span>\n" ++
      "    </div>\n" ++
      "    \n" ++
      "    <div class=\"workout__details\">\n" ++
      "          <span class=\"workout__icon\">⚡\ufe0f</span>\n" ++
      "          <span class=\"workout__value\">12.0</span>\n" ++
      "          <span class=\"workout__unit\">min/km</span>\n" ++
      "        </div>\n" ++
      "        <div class=\"workout__details\">\n" ++
      "          <span class=\"workout__icon\">🦶🏼</span>\n" ++
      "          <span class=\"workout__value\">170<span>\n" ++
      "         <span class=\"workout__unit\">spm</span>\n" ++
      "     </div>\n" ++
      "   </li>\n" ++
      "    ") := by
  refine ⟨?_, rfl⟩
  intro α J p ps v
  simp [_renderWorkout.html, getProp, lookup_assign_ne]

section RoundTrip

variable {α : Type} (J : JSNum α)

/-- Rendering list items does not touch the log. -/
theorem forEachRenderWorkout_workouts (works : List (JVal α)) (s : App α) :
    (forEachRenderWorkout J works s).state.workouts = s.workouts := by
  induction works generalizing s with
  | nil => rfl
  | cons w rest ih =>
    unfold forEachRenderWorkout _renderWorkout
    cases _renderWorkout.html J w with
    | error e => rfl
    | ok html =>
      simp only [Completion.andThen]
      rw [ih]
      rfl

/-- After `_setLocalStorage`, `_getLocalStorage` leaves in the log the JSON
documents of the entries, whether or not rendering them throws. -/
theorem load_after_store (s : App α) :
    (_getLocalStorage J (_setLocalStorage J s)).state.workouts = toJSONArr J s.workouts := by
  simp [_getLocalStorage, _setLocalStorage, emit, JSON.stringify, JSON.parse, toJSON, toBoolean,
    forEachRenderWorkout_workouts]

/-- The JSON documents of a list without `undefined` entries, entry by entry. -/
theorem toJSONArr_eq_map (works : List (JVal α)) (h : ∀ w ∈ works, w ≠ .undefined) :
    toJSONArr J works = works.map (toJSON J) := by
  induction works with
  | nil => rfl
  | cons w rest ih =>
    have hw := h w (List.mem_cons_self _ _)
    have hr := ih (fun x hx => h x (List.mem_cons_of_mem _ hx))
    cases w <;> simp_all [toJSONArr]

/-- The JSON document of a finite entry keeps `id`, `distance`, `duration`,
`coords` and `type`. -/
theorem toJSON_finiteEntry (w : JVal α) (hw : FiniteEntry J w) (key : String)
    (hkey : key ∈ ["id", "distance", "duration", "coords", "type"]) :
    getProp (toJSON J w) key = getProp w key := by
  obtain ⟨clk, lat, lng, d, t, x, h1, h2, h3, h4, hw | hw⟩ := hw <;>
  · subst hw
    simp only [List.mem_cons, List.mem_singleton, List.not_mem_nil, or_false] at hkey
    rcases hkey with rfl | rfl | rfl | rfl | rfl <;>
      simp [toJSON, toJSONProps, toJSONArr, runningProps, cyclingProps, getProp, lookup, h1, h2,
        h3, h4]

/-- Round trip on validated logs: when every entry of the log was recorded at
finite coordinates with a finite distance and duration, `_setLocalStorage`
followed by `_getLocalStorage` leaves a log of equal length in which, position
by position, `id`, `distance`, `duration`, `coords` and `type` are those of the
original entry. -/
theorem roundtrip_finite_entries (s : App α) (hfin : ∀ w ∈ s.workouts, FiniteEntry J w)
    (i : Nat) (h1 : i < s.workouts.length)
    (h2 : i < (_getLocalStorage J (_setLocalStorage J s)).state.workouts.length)
    (key : String) (hkey : key ∈ ["id", "distance", "duration", "coords", "type"]) :
    (_getLocalStorage J (_setLocalStorage J s)).state.workouts.length = s.workouts.length ∧
    getProp ((_getLocalStorage J (_setLocalStorage J s)).state.workouts.get ⟨i, h2⟩) key =
      getProp (s.workouts.get ⟨i, h1⟩) key := by
  have hne : ∀ w ∈ s.workouts, w ≠ .undefined := by
    intro w hw hu
    obtain ⟨_, _, _, _, _, _, _, _, _, _, h | h⟩ := hfin w hw <;> rw [hu] at h <;> cases h
  have hload : (_getLocalStorage J (_setLocalStorage J s)).state.workouts =
      s.workouts.map (toJSON J) := by
    rw [load_after_store, toJSONArr_eq_map J _ hne]
  constructor
  · rw [hload, List.length_map]
  · have hget : (_getLocalStorage J (_setLocalStorage J s)).state.workouts.get ⟨i, h2⟩ =
        toJSON J (s.workouts.get ⟨i, h1⟩) := by
      simp [hload]
    rw [hget]
    exact toJSON_finiteEntry J _ (hfin _ (List.get_mem _ _ _)) key hkey

end RoundTrip

/-- C4, at the failing input: a cycling submission with distance `Infinity`
is recorded with distance `Infinity`; after `_setLocalStorage`, the load by
`_getLocalStorage` throws a `TypeError` while rendering the entry (its stored
speed is `null`), and the entry it loaded has distance `null`. -/
theorem C4_roundtrip_nonfinite :
    ∃ w s1 s2 w2,
      _newWorkout decNum clk0 (appClicked "cycling" "Infinity" "60" "" "0") = .normal s1 ∧
      s1.workouts = [w] ∧
      getProp w "distance" = .ok (.num Dec.posInf) ∧
      _getLocalStorage decNum (_setLocalStorage decNum s1) =
        .throw (.typeError "Cannot read properties of null (reading toFixed)") s2 ∧
      s2.workouts = [w2] ∧
      getProp w2 "distance" = .ok .null ∧
      getProp w2 "speed" = .ok .null := by
  obtain ⟨html, hrun⟩ := newWorkout_cycling decNum clk0
    (appClicked "cycling" "Infinity" "60" "" "0") map0 latlng0.1 latlng0.2 rfl rfl rfl
  exact ⟨_, _, _, _, hrun, rfl, rfl, rfl, rfl, rfl, rfl⟩

end MapApp
